import Mathlib

/-!
Verification development for the budget-gated usage-tracking and
agent-orchestration core of the portfolio-assistant repository.

Shallow embedding conventions:
- Python floats that hold monetary amounts, token counts and percentages are
  modelled as rationals (`ℚ`); the budget arithmetic of the source uses only
  `+`, `-`, `*`, `/` and comparisons, which `ℚ` models exactly.
- Timestamps are the ISO-8601 strings produced by `datetime.now().isoformat()`.
  `datetime.fromisoformat(ts).date()` keeps exactly the `YYYY-MM-DD` part of a
  valid ISO string, so the calendar date of a timestamp is modelled as its
  first ten characters, and the current date (`datetime.now().date()`) is
  passed to each operation as a `today : String` parameter.
- The on-disk JSON document written by `json.dump` / read by `json.load` is
  modelled at the level of JSON values (`Json` below); the standard library's
  text serializer and parser form a bijection on JSON values and are modelled
  as the identity on `Json`.
- Fallible operations return `Option`; a raised Python exception that escapes
  a function is an explicit error constructor in that function's result type.
-/

namespace PortfolioApp

/-- JSON values, the shape of the data handled by `json.dump` / `json.load`
and of the `token_usage` payload of an LLM response. Python ints and floats
are both modelled by `ℚ`; separate constructors keep the distinction. -/
inductive Json where
  | null : Json
  | bool (b : Bool) : Json
  | int (n : Int) : Json
  | num (q : ℚ) : Json
  | str (s : String) : Json
  | arr (elems : List Json) : Json
  | obj (fields : List (String × Json)) : Json

/-- One entry of the usage ledger: the dict appended by
`UsageTracker.record_usage` (src/agent/usage_tracker.py), which always carries
exactly these six keys. Token counts are `ℚ` because the Python values are
whatever numbers the caller passes (the interceptor passes `int(...)` for
input tokens and the raw completion count for output tokens). -/
structure UsageRecord where
  timestamp : String
  model : String
  input_tokens : ℚ
  output_tokens : ℚ
  cost : ℚ
  query_type : String
  deriving DecidableEq, Repr

/-- Calendar date of an ISO-8601 timestamp string: its `YYYY-MM-DD` part,
modelling `datetime.fromisoformat(ts).date()`. -/
def dateOf (timestamp : String) : String := timestamp.take 10

/-- Round a rational to the nearest integer, ties to even — the rounding
Python's fixed-point string formatting applies to the scaled value. -/
def roundHalfEven (q : ℚ) : Int :=
  let f : Int := q.floor
  let r : ℚ := q - (f : ℚ)
  if r < 1 / 2 then f
  else if 1 / 2 < r then f + 1
  else if f % 2 = 0 then f else f + 1

/-- Pad a string of digits with leading zero characters up to `len`. -/
def padZeros (s : String) (len : Nat) : String :=
  String.mk (List.replicate (len - s.length) '0') ++ s

/-- Fixed-point decimal rendering of a rational with `prec` fractional
digits, modelling Python's format specifier of the form `.Nf`. -/
def formatFixed (q : ℚ) (prec : Nat) : String :=
  let scaled : Int := roundHalfEven (q * (10 : ℚ) ^ prec)
  let sign : String := if scaled < 0 then "-" else ""
  let n : Nat := scaled.natAbs
  let ip : Nat := n / 10 ^ prec
  let fp : Nat := n % 10 ^ prec
  if prec = 0 then sign ++ toString ip
  else sign ++ toString ip ++ "." ++ padZeros (toString fp) prec

/-- Rejection reason built by `can_make_request` when the lifetime budget
would be exceeded; it names the remaining lifetime headroom. -/
def budgetLimitMessage (total_spent budget_limit : ℚ) : String :=
  "Budget limit reached. Total: $" ++ formatFixed total_spent 4 ++ " / $" ++
    formatFixed budget_limit 2 ++ ". Remaining: $" ++
    formatFixed (budget_limit - total_spent) 4

/-- Rejection reason built by `can_make_request` when the daily budget would
be exceeded; it names the remaining daily headroom. -/
def dailyLimitMessage (daily_spent daily_limit : ℚ) : String :=
  "Daily limit reached. Today: $" ++ formatFixed daily_spent 4 ++ " / $" ++
    formatFixed daily_limit 2 ++ ". Remaining: $" ++
    formatFixed (daily_limit - daily_spent) 4

namespace UsageTracker

/-- `UsageTracker.record_usage`: load the ledger, append one record whose
timestamp is the current instant, save. The persisted ledger between calls is
the `data` list; `now` is `datetime.now().isoformat()`. -/
def record_usage (data : List UsageRecord) (now : String) (model : String)
    (input_tokens output_tokens : ℚ) (cost : ℚ) (query_type : String) :
    List UsageRecord :=
  data ++ [⟨now, model, input_tokens, output_tokens, cost, query_type⟩]

/-- `UsageTracker.get_total_spent`: sum of `record['cost']` over the ledger. -/
def get_total_spent (data : List UsageRecord) : ℚ :=
  (data.map fun r => r.cost).sum

/-- `UsageTracker.get_daily_spent`: accumulate the cost of every record whose
timestamp's calendar date equals today's date. -/
def get_daily_spent (data : List UsageRecord) (today : String) : ℚ :=
  data.foldl (fun acc r => if dateOf r.timestamp = today then acc + r.cost else acc) 0

/-- `UsageTracker.can_make_request`: reject when the estimated cost would push
the lifetime total over `budget_limit` (checked first), else when it would
push today's total over `daily_limit`, else allow. -/
def can_make_request (budget_limit daily_limit : ℚ) (data : List UsageRecord)
    (today : String) (estimated_cost : ℚ) : Bool × String :=
  let total_spent := get_total_spent data
  let daily_spent := get_daily_spent data today
  if total_spent + estimated_cost > budget_limit then
    (false, budgetLimitMessage total_spent budget_limit)
  else if daily_spent + estimated_cost > daily_limit then
    (false, dailyLimitMessage daily_spent daily_limit)
  else
    (true, "OK")

/-- Result dict of `UsageTracker.get_budget_status`. -/
structure BudgetStatus where
  total_spent : ℚ
  total_limit : ℚ
  total_remaining : ℚ
  total_percent : ℚ
  daily_spent : ℚ
  daily_limit : ℚ
  daily_remaining : ℚ
  status : String
  deriving DecidableEq, Repr

/-- `UsageTracker._get_status_level`: qualitative level from the lifetime
percentage used. -/
def get_status_level (percent : ℚ) : String :=
  if percent ≥ 95 then "CRITICAL"
  else if percent ≥ 80 then "WARNING"
  else if percent ≥ 50 then "CAUTION"
  else "OK"

/-- `UsageTracker.get_budget_status`: spent, remaining and percentage for both
windows; the percentage guards against a zero (or non-positive) lifetime
limit and reports 0 in that case. -/
def get_budget_status (budget_limit daily_limit : ℚ) (data : List UsageRecord)
    (today : String) : BudgetStatus :=
  let total_spent := get_total_spent data
  let daily_spent := get_daily_spent data today
  let total_remaining := budget_limit - total_spent
  let daily_remaining := daily_limit - daily_spent
  let total_percent := if budget_limit > 0 then total_spent / budget_limit * 100 else 0
  ⟨total_spent, budget_limit, total_remaining, total_percent,
    daily_spent, daily_limit, daily_remaining, get_status_level total_percent⟩

/-- JSON encoding of one ledger record: the dict written by `_save_data`
(keys in the insertion order `record_usage` uses). -/
def encodeRecord (r : UsageRecord) : Json :=
  Json.obj [("timestamp", Json.str r.timestamp), ("model", Json.str r.model),
    ("input_tokens", Json.num r.input_tokens),
    ("output_tokens", Json.num r.output_tokens),
    ("cost", Json.num r.cost), ("query_type", Json.str r.query_type)]

/-- Decoding of one persisted record dict back into a ledger record. -/
def decodeRecord : Json → Option UsageRecord
  | Json.obj [("timestamp", Json.str ts), ("model", Json.str m),
      ("input_tokens", Json.num i), ("output_tokens", Json.num o),
      ("cost", Json.num c), ("query_type", Json.str q)] =>
    some ⟨ts, m, i, o, c, q⟩
  | _ => none

/-- Decode a list of persisted record dicts; fails if any element fails. -/
def decodeList : List Json → Option (List UsageRecord)
  | [] => some []
  | j :: rest =>
    match decodeRecord j, decodeList rest with
    | some r, some rs => some (r :: rs)
    | _, _ => none

/-- `UsageTracker._save_data`: the JSON document `json.dump` writes for the
ledger — an array of record dicts. -/
def save_data (data : List UsageRecord) : Json :=
  Json.arr (data.map encodeRecord)

/-- `UsageTracker._load_data` applied to a document written by `_save_data`:
`json.load` yields the array back and each element is a record dict. -/
def load_data : Json → Option (List UsageRecord)
  | Json.arr elems => decodeList elems
  | _ => none

/-- Replay a sequence of `record_usage` appends starting from the empty
ledger (the state of a fresh store). -/
def appendAll (rs : List UsageRecord) : List UsageRecord :=
  rs.foldl
    (fun d r => record_usage d r.timestamp r.model r.input_tokens r.output_tokens
      r.cost r.query_type) []

end UsageTracker

namespace TokenCounterCallback

/-- The per-model rate table of `TokenCounterCallback._calculate_cost`
(src/agent/llm_client.py): model identifier to (input rate, output rate) per
token. -/
def costRates : List (String × ℚ × ℚ) :=
  [("openai/gpt-3.5-turbo", ((0.0015 : ℚ) / 1000, (0.002 : ℚ) / 1000)),
   ("anthropic/claude-3-haiku", ((0.00025 : ℚ) / 1000, (0.00125 : ℚ) / 1000)),
   ("google/gemini-flash-1.5", ((0.00035 : ℚ) / 1000, (0.00105 : ℚ) / 1000))]

/-- Dictionary lookup in the rate table (`costs.get(model, ...)` without the
default). -/
def lookupRate (model : String) : Option (ℚ × ℚ) :=
  (costRates.find? fun p => p.1 == model).map fun p => p.2

/-- `TokenCounterCallback._calculate_cost`: rate-table lookup with the
`openai/gpt-3.5-turbo` entry as the fallback for unrecognized identifiers,
then linear cost. -/
def calculate_cost (model : String) (input_tokens output_tokens : ℚ) : ℚ :=
  let model_costs :=
    match lookupRate model with
    | some rates => rates
    | none => ((0.0015 : ℚ) / 1000, (0.002 : ℚ) / 1000)
  input_tokens * model_costs.1 + output_tokens * model_costs.2

/-- Number of words of a prompt: `len(prompt.split())`, i.e. the maximal
whitespace-separated non-empty chunks. -/
def wordCount (s : String) : Nat :=
  ((s.split fun c => c.isWhitespace).filter fun w => !w.isEmpty).length

/-- Mutable token counters of a `TokenCounterCallback` instance. -/
structure CallbackState where
  input_tokens : ℚ
  output_tokens : ℚ
  deriving DecidableEq, Repr

/-- `TokenCounterCallback.on_llm_start`: add the scaled word count of every
prompt to the provisional input-token estimate (factor 1.3). -/
def on_llm_start (st : CallbackState) (prompts : List String) : CallbackState :=
  prompts.foldl
    (fun s p => ⟨s.input_tokens + (wordCount p : ℚ) * (1.3 : ℚ), s.output_tokens⟩) st

/-- Python `dict.get` on a string-keyed dict of JSON values. -/
def dictGet (d : List (String × Json)) (key : String) : Option Json :=
  (d.find? fun p => p.1 == key).map fun p => p.2

/-- Numeric field of a token-usage dict; Python ints and floats both count.
A non-numeric value would make the source crash later in the arithmetic, so
the domain here is numeric-or-absent. -/
def getNum (d : List (String × Json)) (key : String) : Option ℚ :=
  match dictGet d key with
  | some (Json.int n) => some (n : ℚ)
  | some (Json.num q) => some q
  | _ => none

/-- Python `int(...)` on a number: truncation toward zero. -/
def pyInt (q : ℚ) : Int :=
  if 0 ≤ q then q.floor else -(-q).floor

/-- The part of an LLM response `on_llm_end` inspects: `llm_output` is absent
or `None` (`none`) or a dict (`some` association list; the empty list is
Python's empty dict, which is falsy). -/
structure LLMResult where
  llm_output : Option (List (String × Json))

/-- The `token_usage` entry of a non-empty `llm_output`, default the empty
dict (`llm_output.get('token_usage', \x7b\x7d)`). -/
def tokenUsageOf (d : List (String × Json)) : List (String × Json) :=
  match dictGet d "token_usage" with
  | some (Json.obj fields) => fields
  | _ => []

/-- `TokenCounterCallback.on_llm_end`: when `llm_output` is present and
truthy, take exact token counts when the `token_usage` dict has them (the
provisional estimate stands otherwise, and output tokens default to 0),
compute the cost for the configured model and append one ledger record; when
`llm_output` is absent or falsy, do nothing. Returns the updated counters and
ledger. `cfg_model` is `config.LLM_MODEL`, `now` the current instant,
`qt` the session's query type. -/
def on_llm_end (cfg_model : String) (now : String) (qt : String)
    (st : CallbackState) (data : List UsageRecord) (response : LLMResult) :
    CallbackState × List UsageRecord :=
  match response.llm_output with
  | none => (st, data)
  | some d =>
    if d.isEmpty then (st, data)
    else
      let token_usage := tokenUsageOf d
      let input_tokens := (getNum token_usage "prompt_tokens").getD st.input_tokens
      let output_tokens := (getNum token_usage "completion_tokens").getD 0
      let cost := calculate_cost cfg_model input_tokens output_tokens
      (⟨input_tokens, output_tokens⟩,
        UsageTracker.record_usage data now cfg_model ((pyInt input_tokens : Int) : ℚ)
          output_tokens cost qt)

end TokenCounterCallback

namespace PortfolioAgent

/-- Outcome of `PortfolioAgent.query` as seen by the caller: either a raised
exception escaping `query`, or a normally returned answer string. -/
inductive QueryOutcome where
  | raised (msg : String) : QueryOutcome
  | returned (answer : String) : QueryOutcome
  deriving DecidableEq, Repr

/-- Behaviour of the agent-executor run `query` wraps in its try block:
number of underlying model calls made, the ledger after those calls, and
either a normal output or a raised exception message (caught by `query`). -/
structure AgentRun where
  modelCalls : Nat
  ledgerAfter : List UsageRecord
  outcome : Except String String

/-- Result of one `PortfolioAgent.query` call: what the caller sees, the
ledger afterwards, and how many model calls were made. -/
structure QueryResult where
  result : QueryOutcome
  ledger : List UsageRecord
  modelCalls : Nat

/-- `PortfolioAgent._check_budget`: run the pre-flight check with the default
estimate 0.01 and raise `ValueError` (return `some` message) on failure. -/
def check_budget (budget_limit daily_limit : ℚ) (data : List UsageRecord)
    (today : String) : Option String :=
  let r := UsageTracker.can_make_request budget_limit daily_limit data today (0.01 : ℚ)
  if r.1 then none else some ("Budget limit exceeded: " ++ r.2)

/-- `PortfolioAgent.query`: the budget check runs before (and outside) the
try block, so its `ValueError` escapes to the caller; only the executor
invocation is guarded, and an exception there becomes a returned error
string. `run` abstracts the agent-executor invocation on the current
ledger. -/
def query (budget_limit daily_limit : ℚ) (data : List UsageRecord)
    (today : String) (run : List UsageRecord → AgentRun) : QueryResult :=
  match check_budget budget_limit daily_limit data today with
  | some msg => ⟨QueryOutcome.raised msg, data, 0⟩
  | none =>
    let r := run data
    match r.outcome with
    | Except.ok out => ⟨QueryOutcome.returned out, r.ledgerAfter, r.modelCalls⟩
    | Except.error e =>
      ⟨QueryOutcome.returned ("Error processing query: " ++ e), r.ledgerAfter, r.modelCalls⟩

/-- The iteration cap `AgentExecutor(max_iterations=5)` configured in
`PortfolioAgent._initialize_agent` (src/agent/agent.py). -/
def max_iterations : Nat := 5

end PortfolioAgent

namespace ReasoningLoop

/-- Modelled from the spec: the shapes the Reasoning Loop parses a model
response into — a final answer, an action with its input, or malformed text
matching neither. The loop itself lives in the agent-executor library, not
under src/, so it is modelled from the specification's state machine. -/
inductive ModelOutput where
  | finalAnswer (text : String) : ModelOutput
  | action (name : String) (input : String) : ModelOutput
  | malformed (raw : String) : ModelOutput

/-- Whether a model output matches neither recognized shape. -/
def ModelOutput.isMalformed : ModelOutput → Bool
  | ModelOutput.malformed _ => true
  | _ => false

/-- Modelled from the spec: terminal result of the Reasoning Loop — `DONE`
with the final answer, or `FAILED` with a terminal message. -/
inductive LoopResult where
  | done (answer : String) : LoopResult
  | failed (msg : String) : LoopResult
  deriving DecidableEq, Repr

/-- Modelled from the spec: the generic termination message the caller
receives when the iteration cap is exceeded. -/
def iterationLimitMessage : String :=
  "Agent stopped: could not complete within the iteration limit."

/-- Modelled from the spec: observation synthesized after a parse failure. -/
def malformedObservation : String :=
  "Your previous output was malformed; use the required format."

/-- Modelled from the spec: observation synthesized for an unknown tool. -/
def invalidToolObservation (name : String) : String :=
  "Unknown tool " ++ name ++ "; use one of the listed tool names."

/-- Modelled from the spec: observation a raising tool is converted to. -/
def toolErrorObservation (e : String) : String :=
  "Tool execution failed: " ++ e

/-- Modelled from the spec: one execution of the Reasoning Loop state machine
on remaining fuel. Each round sends the transcript to the model (one
model/tool round trip, counted in the second component); a final answer ends
in `DONE`; malformed output, an unknown tool name, a tool result or a caught
tool exception each append an observation and consume one iteration of the
cap; exhausted fuel ends in `FAILED`. A tool is a function from the action
input to a result or a raised-exception message. -/
def runLoopAux (tools : List (String × (String → Except String String)))
    (model : List String → ModelOutput) :
    Nat → List String → Nat → LoopResult × Nat
  | 0, _, calls => (LoopResult.failed iterationLimitMessage, calls)
  | Nat.succ fuel, transcript, calls =>
    match model transcript with
    | ModelOutput.finalAnswer t => (LoopResult.done t, calls + 1)
    | ModelOutput.malformed _ =>
      runLoopAux tools model fuel (transcript ++ [malformedObservation]) (calls + 1)
    | ModelOutput.action name inp =>
      match tools.find? fun p => p.1 == name with
      | none =>
        runLoopAux tools model fuel (transcript ++ [invalidToolObservation name]) (calls + 1)
      | some t =>
        match t.2 inp with
        | Except.ok obs =>
          runLoopAux tools model fuel (transcript ++ [obs]) (calls + 1)
        | Except.error e =>
          runLoopAux tools model fuel (transcript ++ [toolErrorObservation e]) (calls + 1)

/-- Modelled from the spec: run the Reasoning Loop for one query under the
iteration cap, starting from an empty transcript; returns the terminal result
and the number of model/tool round trips performed. -/
def runLoop (cap : Nat) (tools : List (String × (String → Except String String)))
    (model : List String → ModelOutput) : LoopResult × Nat :=
  runLoopAux tools model cap [] 0

end ReasoningLoop

namespace UsageTracker

theorem get_daily_spent_foldl (today : String) :
    ∀ (l : List UsageRecord) (a : ℚ),
      l.foldl (fun acc r => if dateOf r.timestamp = today then acc + r.cost else acc) a
        = a + (((l.filter fun r => dateOf r.timestamp == today).map fun r => r.cost).sum) := by
  intro l
  induction l with
  | nil => intro a; simp
  | cons r t ih =>
    intro a
    by_cases h : dateOf r.timestamp = today
    · simp [List.foldl_cons, h, ih, List.filter_cons]
      ring
    · simp [List.foldl_cons, h, ih, List.filter_cons]

theorem get_daily_spent_eq (data : List UsageRecord) (today : String) :
    get_daily_spent data today
      = (((data.filter fun r => dateOf r.timestamp == today).map fun r => r.cost).sum) := by
  unfold get_daily_spent
  simpa using get_daily_spent_foldl today data 0

theorem appendAll_eq_self : ∀ rs : List UsageRecord, appendAll rs = rs := by
  have h : ∀ (rs d : List UsageRecord),
      rs.foldl
        (fun d r => record_usage d r.timestamp r.model r.input_tokens r.output_tokens
          r.cost r.query_type) d = d ++ rs := by
    intro rs
    induction rs with
    | nil => intro d; simp
    | cons r t ih =>
      intro d
      rw [List.foldl_cons,
        show record_usage d r.timestamp r.model r.input_tokens r.output_tokens r.cost
            r.query_type = d ++ [r] from rfl,
        ih]
      simp
  intro rs
  simpa using h rs []

theorem get_status_level_iff (p : ℚ) :
    (get_status_level p = "CRITICAL" ↔ 95 ≤ p) ∧
    (get_status_level p = "WARNING" ↔ 80 ≤ p ∧ p < 95) ∧
    (get_status_level p = "CAUTION" ↔ 50 ≤ p ∧ p < 80) ∧
    (get_status_level p = "OK" ↔ p < 50) := by
  unfold get_status_level
  split_ifs with h1 h2 h3 <;> refine ⟨?_, ?_, ?_, ?_⟩ <;> simp <;> intros <;>
    first | linarith | (constructor <;> linarith)

end UsageTracker

/-- C1: For every ledger state and every estimated cost e, `can_make_request`
returns allowed=false exactly when total spent + e exceeds the lifetime limit
or daily spent + e exceeds the daily limit, and allowed=true otherwise; when
the sum exactly equals a limit the request is allowed (rejection is triggered
by strict `>`, not `≥`). -/
theorem C1_can_make_request_boundary
    (budget_limit daily_limit : ℚ) (data : List UsageRecord) (today : String)
    (estimated_cost : ℚ) :
    ((UsageTracker.can_make_request budget_limit daily_limit data today estimated_cost).1
        = false ↔
      UsageTracker.get_total_spent data + estimated_cost > budget_limit ∨
      UsageTracker.get_daily_spent data today + estimated_cost > daily_limit) ∧
    ((UsageTracker.can_make_request budget_limit daily_limit data today estimated_cost).1
        = true ↔
      UsageTracker.get_total_spent data + estimated_cost ≤ budget_limit ∧
      UsageTracker.get_daily_spent data today + estimated_cost ≤ daily_limit) := by
  unfold UsageTracker.can_make_request
  dsimp only
  split_ifs with h1 h2 <;> refine ⟨?_, ?_⟩ <;> simp <;> intros <;>
    first | tauto | linarith | (constructor <;> linarith)

/-- C5: For every ledger state, the status level reported by
`get_budget_status` is CRITICAL exactly when the lifetime percent used is
at least 95, WARNING exactly when it is in [80, 95), CAUTION exactly when it
is in [50, 80), and OK otherwise (below 50). -/
theorem C5_status_level
    (budget_limit daily_limit : ℚ) (data : List UsageRecord) (today : String) :
    ((UsageTracker.get_budget_status budget_limit daily_limit data today).status
        = "CRITICAL" ↔
      95 ≤ (UsageTracker.get_budget_status budget_limit daily_limit data today).total_percent) ∧
    ((UsageTracker.get_budget_status budget_limit daily_limit data today).status
        = "WARNING" ↔
      80 ≤ (UsageTracker.get_budget_status budget_limit daily_limit data today).total_percent ∧
      (UsageTracker.get_budget_status budget_limit daily_limit data today).total_percent < 95) ∧
    ((UsageTracker.get_budget_status budget_limit daily_limit data today).status
        = "CAUTION" ↔
      50 ≤ (UsageTracker.get_budget_status budget_limit daily_limit data today).total_percent ∧
      (UsageTracker.get_budget_status budget_limit daily_limit data today).total_percent < 80) ∧
    ((UsageTracker.get_budget_status budget_limit daily_limit data today).status
        = "OK" ↔
      (UsageTracker.get_budget_status budget_limit daily_limit data today).total_percent < 50) := by
  have hs : (UsageTracker.get_budget_status budget_limit daily_limit data today).status
      = UsageTracker.get_status_level
        ((UsageTracker.get_budget_status budget_limit daily_limit data today).total_percent) := rfl
  rw [hs]
  exact UsageTracker.get_status_level_iff _

/-- C6: For every sequence of records appended via `record_usage` starting
from the empty store, `get_total_spent` equals the sum of the costs of all
records in the ledger, and `get_daily_spent` equals the sum of the costs of
exactly those records whose timestamp's calendar date equals the current day;
and read-after-write consistency holds: a just-appended record is included in
the next read of both aggregates. -/
theorem C6_ledger_sum_consistency
    (today : String) (rs data : List UsageRecord) (r : UsageRecord) :
    UsageTracker.get_total_spent (UsageTracker.appendAll rs)
        = ((rs.map fun x => x.cost).sum) ∧
    UsageTracker.get_daily_spent (UsageTracker.appendAll rs) today
        = (((rs.filter fun x => dateOf x.timestamp == today).map fun x => x.cost).sum) ∧
    UsageTracker.get_total_spent
        (UsageTracker.record_usage data r.timestamp r.model r.input_tokens r.output_tokens
          r.cost r.query_type)
        = UsageTracker.get_total_spent data + r.cost ∧
    UsageTracker.get_daily_spent
        (UsageTracker.record_usage data r.timestamp r.model r.input_tokens r.output_tokens
          r.cost r.query_type) today
        = UsageTracker.get_daily_spent data today
            + (if dateOf r.timestamp = today then r.cost else 0) := by
  have hr : UsageTracker.record_usage data r.timestamp r.model r.input_tokens r.output_tokens
      r.cost r.query_type = data ++ [r] := rfl
  refine ⟨?_, ?_, ?_, ?_⟩
  · rw [UsageTracker.appendAll_eq_self]
    rfl
  · rw [UsageTracker.appendAll_eq_self, UsageTracker.get_daily_spent_eq]
  · rw [hr]
    simp [UsageTracker.get_total_spent]
  · rw [hr, UsageTracker.get_daily_spent_eq, UsageTracker.get_daily_spent_eq,
      List.filter_append, List.map_append, List.sum_append]
    by_cases h : dateOf r.timestamp = today <;> simp [h]

theorem decodeRecord_encodeRecord (r : UsageRecord) :
    UsageTracker.decodeRecord (UsageTracker.encodeRecord r) = some r := rfl

theorem decodeList_encode (l : List UsageRecord) :
    UsageTracker.decodeList (l.map UsageTracker.encodeRecord) = some l := by
  induction l with
  | nil => rfl
  | cons r t ih => simp [UsageTracker.decodeList, decodeRecord_encodeRecord, ih]

/-- C8: For every sequence of usage records, saving the ledger to the store
and loading it back yields the same sequence of records, so recomputing the
total spent after a save/load cycle yields the same value as before
persistence. -/
theorem C8_save_load_round_trip (data : List UsageRecord) :
    UsageTracker.load_data (UsageTracker.save_data data) = some data ∧
    Option.map UsageTracker.get_total_spent
        (UsageTracker.load_data (UsageTracker.save_data data))
      = some (UsageTracker.get_total_spent data) := by
  have h : UsageTracker.load_data (UsageTracker.save_data data) = some data := by
    unfold UsageTracker.save_data UsageTracker.load_data
    exact decodeList_encode data
  exact ⟨h, by rw [h]; rfl⟩

theorem lookupRate_nonneg (model : String) (rates : ℚ × ℚ)
    (h : TokenCounterCallback.lookupRate model = some rates) :
    0 ≤ rates.1 ∧ 0 ≤ rates.2 := by
  unfold TokenCounterCallback.lookupRate at h
  cases hf : TokenCounterCallback.costRates.find? fun p => p.1 == model with
  | none => rw [hf] at h; simp at h
  | some p =>
    rw [hf] at h
    simp at h
    have hmem := List.mem_of_find?_eq_some hf
    subst h
    simp [TokenCounterCallback.costRates] at hmem
    rcases hmem with h | h | h <;> rw [h] <;> constructor <;> norm_num

/-- C7: For every model identifier and all non-negative input and output
token counts, `_calculate_cost` equals inputTokens × inputRate +
outputTokens × outputRate using the model's rate-table entry, falling back
deterministically to the default model's (openai/gpt-3.5-turbo) rates when
the identifier is unrecognized; the result is always non-negative. The Lean
embedding is a pure function, as the source computation has no side effects
or failure modes. -/
theorem C7_calculate_cost_spec (model : String) (input_tokens output_tokens : ℚ)
    (hi : 0 ≤ input_tokens) (ho : 0 ≤ output_tokens) :
    0 ≤ TokenCounterCallback.calculate_cost model input_tokens output_tokens ∧
    (∀ rates, TokenCounterCallback.lookupRate model = some rates →
      TokenCounterCallback.calculate_cost model input_tokens output_tokens
        = input_tokens * rates.1 + output_tokens * rates.2) ∧
    (TokenCounterCallback.lookupRate model = none →
      TokenCounterCallback.calculate_cost model input_tokens output_tokens
        = TokenCounterCallback.calculate_cost "openai/gpt-3.5-turbo"
            input_tokens output_tokens) := by
  refine ⟨?_, ?_, ?_⟩
  · unfold TokenCounterCallback.calculate_cost
    cases h : TokenCounterCallback.lookupRate model with
    | none =>
      dsimp only
      have : (0:ℚ) ≤ input_tokens * ((0.0015 : ℚ) / 1000) := by
        apply mul_nonneg hi; norm_num
      have : (0:ℚ) ≤ output_tokens * ((0.002 : ℚ) / 1000) := by
        apply mul_nonneg ho; norm_num
      positivity
    | some rates =>
      dsimp only
      obtain ⟨h1, h2⟩ := lookupRate_nonneg model rates h
      exact add_nonneg (mul_nonneg hi h1) (mul_nonneg ho h2)
  · intro rates h
    unfold TokenCounterCallback.calculate_cost
    rw [h]
  · intro h
    unfold TokenCounterCallback.calculate_cost
    rw [h]
    rfl

/-- Witness for C7 at a concrete unrecognized model and token counts. -/
theorem C7_calculate_cost_spec_check :
    0 ≤ TokenCounterCallback.calculate_cost "unknown-model" 1000 500 ∧
    (∀ rates, TokenCounterCallback.lookupRate "unknown-model" = some rates →
      TokenCounterCallback.calculate_cost "unknown-model" 1000 500
        = 1000 * rates.1 + 500 * rates.2) ∧
    (TokenCounterCallback.lookupRate "unknown-model" = none →
      TokenCounterCallback.calculate_cost "unknown-model" 1000 500
        = TokenCounterCallback.calculate_cost "openai/gpt-3.5-turbo" 1000 500) :=
  C7_calculate_cost_spec "unknown-model" 1000 500 (by norm_num) (by norm_num)

/-- C9: When both the lifetime and the daily limit would be exceeded,
`can_make_request` rejects with the lifetime reason (which names the
remaining lifetime headroom): the lifetime check is evaluated first and
short-circuits; the daily reason (naming remaining daily headroom) is
produced only when the lifetime check passes. -/
theorem C9_lifetime_check_precedence
    (budget_limit daily_limit : ℚ) (data : List UsageRecord) (today : String)
    (estimated_cost : ℚ) :
    (UsageTracker.get_total_spent data + estimated_cost > budget_limit →
      UsageTracker.get_daily_spent data today + estimated_cost > daily_limit →
      UsageTracker.can_make_request budget_limit daily_limit data today estimated_cost
        = (false, budgetLimitMessage (UsageTracker.get_total_spent data) budget_limit)) ∧
    (UsageTracker.get_total_spent data + estimated_cost ≤ budget_limit →
      UsageTracker.get_daily_spent data today + estimated_cost > daily_limit →
      UsageTracker.can_make_request budget_limit daily_limit data today estimated_cost
        = (false, dailyLimitMessage (UsageTracker.get_daily_spent data today) daily_limit)) := by
  unfold UsageTracker.can_make_request
  dsimp only
  split_ifs with h1 h2 <;> constructor <;> intros <;> first | rfl | (exfalso; linarith)

/-- Witness for C9: on an empty ledger with negative limits both checks
would fail and the lifetime reason wins; with a generous lifetime limit the
daily reason is produced. -/
theorem C9_lifetime_check_precedence_check :
    UsageTracker.can_make_request (-1) (-1) [] "2025-01-01" (1/100)
      = (false, budgetLimitMessage (UsageTracker.get_total_spent []) (-1)) ∧
    UsageTracker.can_make_request 1 (-1) [] "2025-01-01" (1/100)
      = (false, dailyLimitMessage (UsageTracker.get_daily_spent [] "2025-01-01") (-1)) := by
  constructor
  · exact (C9_lifetime_check_precedence (-1) (-1) [] "2025-01-01" (1/100)).1
      (by simp [UsageTracker.get_total_spent]; norm_num)
      (by simp [UsageTracker.get_daily_spent]; norm_num)
  · exact (C9_lifetime_check_precedence 1 (-1) [] "2025-01-01" (1/100)).2
      (by simp [UsageTracker.get_total_spent]; norm_num)
      (by simp [UsageTracker.get_daily_spent]; norm_num)

/-- C10: `get_budget_status` is total for every ledger state and
configuration; with a configured lifetime budget limit of 0 the reported
`total_percent` is 0 (the guard avoids the division by zero). -/
theorem C10_zero_budget_limit_percent
    (daily_limit : ℚ) (data : List UsageRecord) (today : String) :
    (UsageTracker.get_budget_status 0 daily_limit data today).total_percent = 0 := by
  simp [UsageTracker.get_budget_status]

namespace ReasoningLoop

theorem runLoopAux_calls_le (tools : List (String × (String → Except String String)))
    (model : List String → ModelOutput) :
    ∀ (fuel : Nat) (transcript : List String) (calls : Nat),
      (runLoopAux tools model fuel transcript calls).2 ≤ calls + fuel := by
  intro fuel
  induction fuel with
  | zero => intro t c; simp [runLoopAux]
  | succ n ih =>
    intro t c
    rw [runLoopAux]
    cases hm : model t with
    | finalAnswer s => simp
    | malformed raw =>
      dsimp only
      calc (runLoopAux tools model n (t ++ [malformedObservation]) (c + 1)).2
          ≤ (c + 1) + n := ih _ _
        _ ≤ c + (n + 1) := by omega
    | action name inp =>
      dsimp only
      cases hf : tools.find? fun p => p.1 == name with
      | none =>
        dsimp only
        calc (runLoopAux tools model n (t ++ [invalidToolObservation name]) (c + 1)).2
            ≤ (c + 1) + n := ih _ _
          _ ≤ c + (n + 1) := by omega
      | some tool =>
        dsimp only
        cases hr : tool.2 inp with
        | ok obs =>
          dsimp only
          calc (runLoopAux tools model n (t ++ [obs]) (c + 1)).2
              ≤ (c + 1) + n := ih _ _
            _ ≤ c + (n + 1) := by omega
        | error e =>
          dsimp only
          calc (runLoopAux tools model n (t ++ [toolErrorObservation e]) (c + 1)).2
              ≤ (c + 1) + n := ih _ _
            _ ≤ c + (n + 1) := by omega

theorem runLoopAux_all_malformed (tools : List (String × (String → Except String String)))
    (model : List String → ModelOutput)
    (h : ∀ t, (model t).isMalformed = true) :
    ∀ (fuel : Nat) (transcript : List String) (calls : Nat),
      runLoopAux tools model fuel transcript calls
        = (LoopResult.failed iterationLimitMessage, calls + fuel) := by
  intro fuel
  induction fuel with
  | zero => intro t c; simp [runLoopAux]
  | succ n ih =>
    intro t c
    rw [runLoopAux]
    have ht := h t
    cases hm : model t with
    | finalAnswer s => rw [hm] at ht; simp [ModelOutput.isMalformed] at ht
    | action name inp => rw [hm] at ht; simp [ModelOutput.isMalformed] at ht
    | malformed raw =>
      dsimp only
      rw [ih]
      have : c + 1 + n = c + (n + 1) := by omega
      rw [this]

end ReasoningLoop

/-- C2: For every single query, the reasoning loop performs at most the
configured iteration cap of 5 (the `max_iterations` set in
`PortfolioAgent._initialize_agent`) model/tool round trips; and given a
model client that always returns malformed output, the loop terminates in
FAILED at exactly the cap instead of looping forever. -/
theorem C2_iteration_cap
    (tools : List (String × (String → Except String String)))
    (model : List String → ReasoningLoop.ModelOutput) :
    (ReasoningLoop.runLoop PortfolioAgent.max_iterations tools model).2
        ≤ PortfolioAgent.max_iterations ∧
    ((∀ t, (model t).isMalformed = true) →
      ReasoningLoop.runLoop PortfolioAgent.max_iterations tools model
        = (ReasoningLoop.LoopResult.failed ReasoningLoop.iterationLimitMessage,
            PortfolioAgent.max_iterations)) := by
  constructor
  · have := ReasoningLoop.runLoopAux_calls_le tools model PortfolioAgent.max_iterations [] 0
    simpa [ReasoningLoop.runLoop] using this
  · intro h
    have := ReasoningLoop.runLoopAux_all_malformed tools model h PortfolioAgent.max_iterations [] 0
    simpa [ReasoningLoop.runLoop] using this

/-- Witness for C2: the empty tool set with a model that emits unparsable
text on every step reaches FAILED after exactly 5 round trips. -/
theorem C2_iteration_cap_check :
    (ReasoningLoop.runLoop PortfolioAgent.max_iterations []
        (fun _ => ReasoningLoop.ModelOutput.malformed "unparsable")).2
        ≤ PortfolioAgent.max_iterations ∧
    ReasoningLoop.runLoop PortfolioAgent.max_iterations []
        (fun _ => ReasoningLoop.ModelOutput.malformed "unparsable")
      = (ReasoningLoop.LoopResult.failed ReasoningLoop.iterationLimitMessage,
          PortfolioAgent.max_iterations) :=
  ⟨(C2_iteration_cap [] (fun _ => ReasoningLoop.ModelOutput.malformed "unparsable")).1,
    (C2_iteration_cap [] (fun _ => ReasoningLoop.ModelOutput.malformed "unparsable")).2
      (fun _ => rfl)⟩

/-- C3 counterexample: a completed model call whose response exposes no
`llm_output` leaves the ledger untouched — `on_llm_end` appends no record,
so it is not the case that every completed call appends exactly one. -/
theorem C3_no_record_without_llm_output :
    ¬ ((TokenCounterCallback.on_llm_end "openai/gpt-3.5-turbo" "2025-01-01T00:00:00"
        "general" ⟨13/10, 0⟩ [] ⟨none⟩).2.length = 0 + 1) := by
  simp [TokenCounterCallback.on_llm_end]

/-- C3 (amended): for every completed model call whose response carries a
non-empty `llm_output`, the interceptor appends exactly one usage record;
when the token-usage payload lacks exact counts, the provisional input-token
estimate stands and the output-token count defaults to zero in the appended
record. When `llm_output` is absent (or falsy) no record is appended. -/
theorem C3_one_record_when_output_present
    (cfg_model now qt : String) (st : TokenCounterCallback.CallbackState)
    (data : List UsageRecord) (d : List (String × Json)) (hd : d ≠ []) :
    (TokenCounterCallback.on_llm_end cfg_model now qt st data ⟨some d⟩).2.length
        = data.length + 1 ∧
    (TokenCounterCallback.getNum (TokenCounterCallback.tokenUsageOf d) "prompt_tokens"
        = none →
      TokenCounterCallback.getNum (TokenCounterCallback.tokenUsageOf d) "completion_tokens"
        = none →
      (TokenCounterCallback.on_llm_end cfg_model now qt st data ⟨some d⟩).2
        = data ++ [⟨now, cfg_model, ((TokenCounterCallback.pyInt st.input_tokens : Int) : ℚ),
            0, TokenCounterCallback.calculate_cost cfg_model st.input_tokens 0, qt⟩]) ∧
    (TokenCounterCallback.on_llm_end cfg_model now qt st data ⟨none⟩).2 = data := by
  cases d with
  | nil => exact absurd rfl hd
  | cons x xs =>
    refine ⟨?_, ?_, rfl⟩
    · simp [TokenCounterCallback.on_llm_end, UsageTracker.record_usage]
    · intro h1 h2
      simp [TokenCounterCallback.on_llm_end, UsageTracker.record_usage, h1, h2]

/-- Witness for C3 (amended): a response whose `llm_output` is a non-empty
dict without usable token counts yields exactly one appended record carrying
the provisional estimate and zero output tokens. -/
theorem C3_one_record_when_output_present_check :
    (TokenCounterCallback.on_llm_end "openai/gpt-3.5-turbo" "2025-01-01T00:00:00" "general"
        ⟨26/10, 0⟩ [] ⟨some [("foo", Json.null)]⟩).2.length = 0 + 1 ∧
    (TokenCounterCallback.on_llm_end "openai/gpt-3.5-turbo" "2025-01-01T00:00:00" "general"
        ⟨26/10, 0⟩ [] ⟨some [("foo", Json.null)]⟩).2
      = [] ++ [⟨"2025-01-01T00:00:00", "openai/gpt-3.5-turbo",
          ((TokenCounterCallback.pyInt (26/10) : Int) : ℚ), 0,
          TokenCounterCallback.calculate_cost "openai/gpt-3.5-turbo" (26/10) 0, "general"⟩] := by
  have h := C3_one_record_when_output_present "openai/gpt-3.5-turbo" "2025-01-01T00:00:00"
    "general" ⟨26/10, 0⟩ [] [("foo", Json.null)] (by simp)
  exact ⟨by simpa using h.1, h.2.1 rfl rfl⟩

/-- C4 counterexample: at a concrete ledger state where the pre-flight
budget check fails, `query` raises (the `ValueError` from `_check_budget`
escapes to the caller) instead of returning an application-level error
result. -/
theorem C4_budget_failure_raises :
    (PortfolioAgent.query 0 (1/4) [] "2025-01-01"
        (fun d => ⟨0, d, Except.ok "answer"⟩)).result
      = PortfolioAgent.QueryOutcome.raised
          ("Budget limit exceeded: " ++ budgetLimitMessage 0 0) := by
  norm_num [PortfolioAgent.query, PortfolioAgent.check_budget,
    UsageTracker.can_make_request, UsageTracker.get_total_spent,
    UsageTracker.get_daily_spent]

/-- C4 (amended): whenever the pre-flight budget check fails, `query` raises
a budget-exceeded `ValueError` that propagates to the caller (the check runs
outside the try block); no model call is made and no ledger record is
written. -/
theorem C4_budget_failure_no_call_no_write
    (budget_limit daily_limit : ℚ) (data : List UsageRecord) (today : String)
    (run : List UsageRecord → PortfolioAgent.AgentRun) (msg : String)
    (h : PortfolioAgent.check_budget budget_limit daily_limit data today = some msg) :
    PortfolioAgent.query budget_limit daily_limit data today run
      = ⟨PortfolioAgent.QueryOutcome.raised msg, data, 0⟩ := by
  unfold PortfolioAgent.query
  rw [h]

/-- Witness for C4 (amended): with a zero lifetime limit the check fails and
`query` raises without running the agent, even though the supplied run would
have made a model call and written a record. -/
theorem C4_budget_failure_no_call_no_write_check :
    PortfolioAgent.query 0 (1/4) [] "2025-01-01"
        (fun d => ⟨1, d ++ [⟨"2025-01-01T01:00:00", "m", 1, 1, 1, "general"⟩], Except.ok "a"⟩)
      = ⟨PortfolioAgent.QueryOutcome.raised
          ("Budget limit exceeded: " ++ budgetLimitMessage 0 0), [], 0⟩ :=
  C4_budget_failure_no_call_no_write 0 (1/4) [] "2025-01-01"
    (fun d => ⟨1, d ++ [⟨"2025-01-01T01:00:00", "m", 1, 1, 1, "general"⟩], Except.ok "a"⟩)
    ("Budget limit exceeded: " ++ budgetLimitMessage 0 0)
    (by norm_num [PortfolioAgent.check_budget, UsageTracker.can_make_request,
      UsageTracker.get_total_spent, UsageTracker.get_daily_spent])

end PortfolioApp
